import Mathlib

/-!
Verification of the uvg266 encoder core against its natural-language
specification.  The definitions below are shallow embeddings of the C
functions in src/cabac.c, src/encoderstate.c and src/search_inter.c.
C machine integers are modelled as Nat/Int; unsigned 32-bit wrap-around
is applied explicitly (u32) where the C code relies on it.  A few small
helpers whose definitions live in files that are not part of the
excerpt (cabac.h, cu.h, bitstream.c) are modelled from the spec and
carry a doc comment saying so.

The file is organised as: all definitions first, then all theorems.
-/

/-- C macro CLIP(low, high, value) from global.h, used throughout the
source: clamp value into the closed interval. -/
def CLIP (lo hi v : Int) : Int :=
  if v < lo then lo else if v > hi then hi else v

/-- C abs() on int. -/
def c_abs (x : Int) : Int := if x < 0 then -x else x

/-- C arithmetic right shift on a signed int (gcc semantics: floor
division by a power of two). -/
def c_shr (x : Int) (n : Nat) : Int := Int.fdiv x (2 ^ n)

/-- C signed integer division (truncation toward zero). -/
def c_div (a b : Int) : Int := Int.tdiv a b

/-- Unsigned 32-bit wrap-around. -/
def u32 (x : Nat) : Nat := x % 4294967296

/-- Two-component motion vector, vector2d_t with int32 coordinates. -/
structure vector2d where
  x : Int
  y : Int
deriving DecidableEq, Repr

/-- get_scaled_mv from src/search_inter.c lines 1260-1264:
scaled = scale * mv; CLIP(-131072, 131071, (scaled + 127 + (scaled < 0)) >> 8). -/
def get_scaled_mv (mv scale : Int) : Int :=
  let scaled : Int := scale * mv
  CLIP (-131072) 131071 (c_shr (scaled + 127 + (if scaled < 0 then 1 else 0)) 8)

/-- apply_mv_scaling from src/search_inter.c lines 1274-1294, embedded
as a pure function returning the (possibly) scaled MV candidate. -/
def apply_mv_scaling (current_poc current_ref_poc neighbor_poc neighbor_ref_poc : Int)
    (mv_cand : vector2d) : vector2d :=
  let diff_current := current_poc - current_ref_poc
  let diff_neighbor := neighbor_poc - neighbor_ref_poc
  if diff_current = diff_neighbor then mv_cand
  else if diff_neighbor = 0 then mv_cand
  else
    let diff_current := CLIP (-128) 127 diff_current
    let diff_neighbor := CLIP (-128) 127 diff_neighbor
    let scale := CLIP (-4096) 4095
      (c_shr (diff_current * (c_div (0x4000 + c_shr (c_abs diff_neighbor) 1) diff_neighbor) + 32) 6)
    { x := get_scaled_mv mv_cand.x scale, y := get_scaled_mv mv_cand.y scale }

/-- The MV-scaling formula exactly as written in spec section 4.3:
d = clip(-128,127, p - r), dn = clip(-128,127, pn - rn),
scale = clip(-4096,4095, (d * ((0x4000 + abs(dn)/2) / dn) + 32) >> 6),
each component becomes clip(-131072,131071, (scale*mv + 127 + (scale*mv<0)) >> 8).
Written from the wording of the spec, to be compared with apply_mv_scaling. -/
def mv_scaling_spec_formula (p r pn rn : Int) (mv : vector2d) : vector2d :=
  let d := CLIP (-128) 127 (p - r)
  let dn := CLIP (-128) 127 (pn - rn)
  let scale := CLIP (-4096) 4095
    (c_shr (d * (c_div (0x4000 + c_div (c_abs dn) 2) dn) + 32) 6)
  { x := CLIP (-131072) 131071 (c_shr (scale * mv.x + 127 + (if scale * mv.x < 0 then 1 else 0)) 8),
    y := CLIP (-131072) 131071 (c_shr (scale * mv.y + 127 + (if scale * mv.y < 0 then 1 else 0)) 8) }

/-! ### Bitstream writer (modelled from spec section 4.1) -/

/-- The n low bits of value, most significant first. -/
def toBits (value n : Nat) : List Bool :=
  (List.range n).map (fun i => value.testBit (n - 1 - i))

/-- Modelled from the spec: bitstream put(value, n_bits) from
bitstream.c (not part of the excerpt) appends the n low bits of value
MSB-first.  The stream is a list of bits. -/
def bitstream_put (s : List Bool) (value n : Nat) : List Bool :=
  s ++ toBits value n

/-- Modelled from the spec: bitstream put_byte from bitstream.c (not in
the excerpt) appends one byte; the C parameter is uint8_t, so the value
is truncated to 8 bits at the call. Callers must be byte aligned. -/
def bitstream_put_byte (s : List Bool) (b : Nat) : List Bool :=
  bitstream_put s (b &&& 0xff) 8

/-- Modelled from the spec: align_zero from bitstream.c pads the stream
with zero bits to the next byte boundary. -/
def bitstream_align_zero (s : List Bool) : List Bool :=
  s ++ List.replicate ((8 - s.length % 8) % 8) false

/-- View an aligned bit stream as its list of bytes (any non-aligned
tail is ignored; all uses here are byte aligned). -/
def stream_bytes : List Bool → List Nat
  | b0 :: b1 :: b2 :: b3 :: b4 :: b5 :: b6 :: b7 :: rest =>
      ([b0, b1, b2, b3, b4, b5, b6, b7].foldl (fun a b => 2 * a + (if b then 1 else 0)) 0)
        :: stream_bytes rest
  | _ => []

/-! ### CABAC data model (src/cabac.c; context layout from spec 3 and 4.2) -/

/-- Modelled from the spec: a context model (cabac.h, not in the
excerpt) is one byte holding an MPS bit and a 6-bit state index. -/
structure cabac_ctx where
  mps : Bool
  state : Nat
deriving DecidableEq, Repr

/-- The cabac_data_t state: low, range, bits_left, the carry chain
(num_buffered_bytes, buffered_byte), the current context, the
only_count flag and the output bitstream. -/
structure cabac_data where
  low : Nat
  range : Nat
  bits_left : Int
  num_buffered_bytes : Nat
  buffered_byte : Nat
  cur_ctx : cabac_ctx
  only_count : Bool
  stream : List Bool
deriving DecidableEq, Repr

/-- kvz_g_auc_renorm_table from src/cabac.c lines 32-36. -/
def kvz_g_auc_renorm_table : List Nat :=
  [6, 5, 4, 4, 3, 3, 3, 3, 2, 2, 2, 2, 2, 2, 2, 2,
   1, 1, 1, 1, 1, 1, 1, 1, 1, 1, 1, 1, 1, 1, 1, 1]

/-- Modelled from the spec: kvz_g_auc_lpst_table (cabac.h, not in the
excerpt), the standard 64x4 LPS range table referenced in spec section
4.2 step 1 (lps = lps_table[ctx.state][(range >> 6) & 3]). -/
def kvz_g_auc_lpst_table : List (List Nat) :=
  [[128, 176, 208, 240], [128, 167, 197, 227], [128, 158, 187, 216], [123, 150, 178, 205],
   [116, 142, 169, 195], [111, 135, 160, 185], [105, 128, 152, 175], [100, 122, 144, 166],
   [95, 116, 137, 158], [90, 110, 130, 150], [85, 104, 123, 142], [81, 99, 117, 135],
   [77, 94, 111, 128], [73, 89, 105, 122], [69, 85, 100, 116], [66, 80, 95, 110],
   [62, 76, 90, 104], [59, 72, 86, 99], [56, 69, 81, 94], [53, 65, 77, 89],
   [51, 62, 73, 85], [48, 59, 69, 80], [46, 56, 66, 76], [43, 53, 63, 72],
   [41, 50, 59, 69], [39, 48, 56, 65], [37, 45, 54, 62], [35, 43, 51, 59],
   [33, 41, 48, 56], [32, 39, 46, 53], [30, 37, 43, 50], [28, 35, 41, 47],
   [27, 33, 39, 45], [26, 31, 37, 43], [24, 30, 35, 41], [23, 28, 33, 39],
   [22, 27, 32, 37], [21, 26, 30, 35], [20, 24, 29, 33], [19, 23, 27, 31],
   [18, 22, 26, 30], [17, 21, 25, 28], [16, 20, 23, 27], [15, 19, 22, 25],
   [14, 18, 21, 24], [14, 17, 20, 23], [13, 16, 19, 22], [12, 15, 18, 21],
   [12, 14, 17, 20], [11, 14, 16, 19], [11, 13, 15, 18], [10, 12, 15, 17],
   [10, 12, 14, 16], [9, 11, 13, 15], [9, 11, 12, 14], [8, 10, 12, 14],
   [8, 9, 11, 13], [7, 9, 11, 12], [7, 9, 10, 12], [7, 8, 10, 11],
   [6, 8, 9, 11], [6, 7, 9, 10], [6, 7, 8, 9], [2, 2, 2, 2]]

/-- Modelled from the spec: the standard 64-entry LPS state-transition
table of spec section 8 invariant 2 (cabac.h, not in the excerpt). -/
def uvg_transIdxLps : List Nat :=
  [0, 0, 1, 2, 2, 4, 4, 5, 6, 7, 8, 9, 9, 11, 11, 12,
   13, 13, 15, 15, 16, 16, 18, 18, 19, 19, 21, 21, 23, 22, 23, 24,
   24, 25, 26, 26, 27, 27, 28, 29, 29, 30, 30, 30, 31, 32, 32, 33,
   33, 33, 34, 34, 35, 35, 35, 36, 36, 36, 37, 37, 37, 38, 38, 63]

/-- The LPS range for a context state and range index. -/
def lps_value (state idx : Nat) : Nat :=
  (kvz_g_auc_lpst_table.getD state []).getD idx 0

/-- Modelled from the spec: macro CTX_LPS(ctx, range) from cabac.h,
spec section 4.2 step 1. -/
def CTX_LPS (ctx : cabac_ctx) (range : Nat) : Nat :=
  lps_value ctx.state ((range >>> 6) &&& 3)

/-- Modelled from the spec: macro CTX_MPS(ctx) from cabac.h. -/
def CTX_MPS (ctx : cabac_ctx) : Bool := ctx.mps

/-- Modelled from the spec: macro CTX_UPDATE(ctx, val) from cabac.h,
spec section 8 invariant 2: on MPS the state increments, saturating at
62; on LPS the state follows the standard table and the MPS flips iff
the state was 0. -/
def CTX_UPDATE (ctx : cabac_ctx) (bin : Bool) : cabac_ctx :=
  if bin = ctx.mps then
    { ctx with state := if ctx.state < 62 then ctx.state + 1 else ctx.state }
  else
    { mps := if ctx.state = 0 then !ctx.mps else ctx.mps,
      state := uvg_transIdxLps.getD ctx.state 0 }

/-- kvz_cabac_start from src/cabac.c lines 53-61. -/
def kvz_cabac_start (data : cabac_data) : cabac_data :=
  { data with
    low := 0
    range := 510
    bits_left := 23
    num_buffered_bytes := 0
    buffered_byte := 0xff
    only_count := false }

/-- kvz_cabac_write from src/cabac.c lines 99-130: extract the carry
candidate lead byte, advance bits_left by 8, mask the carried bits out
of low, then grow or resolve the buffered carry chain. -/
def kvz_cabac_write (data : cabac_data) : cabac_data :=
  let lead_byte := data.low >>> (24 - data.bits_left).toNat
  let bits_left := data.bits_left + 8
  let low := data.low &&& (0xffffffff >>> bits_left.toNat)
  let d := { data with bits_left := bits_left, low := low }
  if d.only_count then
    { d with num_buffered_bytes := d.num_buffered_bytes + 1 }
  else if lead_byte = 0xff then
    { d with num_buffered_bytes := d.num_buffered_bytes + 1 }
  else if d.num_buffered_bytes > 0 then
    let carry := lead_byte >>> 8
    let byte := d.buffered_byte + carry
    let byte2 := (0xff + carry) &&& 0xff
    let s1 := bitstream_put_byte d.stream byte
    let s2 := (List.replicate (d.num_buffered_bytes - 1) byte2).foldl bitstream_put_byte s1
    { d with buffered_byte := lead_byte &&& 0xff, num_buffered_bytes := 1, stream := s2 }
  else
    { d with num_buffered_bytes := 1, buffered_byte := lead_byte }

/-- kvz_cabac_finish from src/cabac.c lines 135-160. -/
def kvz_cabac_finish (data : cabac_data) : cabac_data :=
  let d :=
    if data.low >>> (32 - data.bits_left).toNat ≠ 0 then
      let s1 := bitstream_put_byte data.stream (data.buffered_byte + 1)
      let s2 := (List.replicate (data.num_buffered_bytes - 1) 0).foldl bitstream_put_byte s1
      { data with
        stream := s2
        num_buffered_bytes := min data.num_buffered_bytes 1
        low := data.low - (1 <<< (32 - data.bits_left).toNat) }
    else
      let s1 := if data.num_buffered_bytes > 0
                then bitstream_put_byte data.stream data.buffered_byte
                else data.stream
      let s2 := (List.replicate (data.num_buffered_bytes - 1) 0xff).foldl bitstream_put_byte s1
      { data with stream := s2, num_buffered_bytes := min data.num_buffered_bytes 1 }
  let bits := ((24 - d.bits_left) % 256).toNat
  { d with stream := bitstream_put d.stream (d.low >>> 8) bits }

/-- kvz_cabac_encode_bin from src/cabac.c lines 66-94: code one regular
bin with the current context; range loses its LPS share, the LPS path
renormalizes by the renorm table, the MPS path renormalizes once when
range drops below 256, and the context is updated. -/
def kvz_cabac_encode_bin (data : cabac_data) (bin_value : Nat) : cabac_data :=
  let lps := CTX_LPS data.cur_ctx data.range
  let data := { data with range := data.range - lps }
  let data :=
    if (decide (bin_value ≠ 0)) ≠ CTX_MPS data.cur_ctx then
      let num_bits := kvz_g_auc_renorm_table.getD (lps >>> 3) 0
      let d := { data with
        low := u32 ((data.low + data.range) <<< num_bits)
        range := lps <<< num_bits
        bits_left := data.bits_left - num_bits }
      if d.bits_left < 12 then kvz_cabac_write d else d
    else
      if data.range < 256 then
        let d := { data with
          low := u32 (data.low <<< 1)
          range := data.range <<< 1
          bits_left := data.bits_left - 1 }
        if d.bits_left < 12 then kvz_cabac_write d else d
      else data
  { data with cur_ctx := CTX_UPDATE data.cur_ctx (decide (bin_value ≠ 0)) }

/-- kvz_cabac_encode_bin_trm from src/cabac.c lines 166-185: range loses
2; on bin = 1 low absorbs the range and is shifted by 7 with range set
to 2 << 7; on bin = 0 with range below 256 one renormalization step. -/
def kvz_cabac_encode_bin_trm (data : cabac_data) (bin_value : Nat) : cabac_data :=
  let range := data.range - 2
  if bin_value ≠ 0 then
    let d := { data with
      low := u32 ((data.low + range) <<< 7)
      range := 2 <<< 7
      bits_left := data.bits_left - 7 }
    if d.bits_left < 12 then kvz_cabac_write d else d
  else if range ≥ 256 then
    { data with range := range }
  else
    let d := { data with
      low := u32 (data.low <<< 1)
      range := range <<< 1
      bits_left := data.bits_left - 1 }
    if d.bits_left < 12 then kvz_cabac_write d else d

/-- kvz_cabac_encode_aligned_bins_ep from src/cabac.c lines 234-263:
bypass bins when range is known to be 256, chunked by up to 8. -/
def kvz_cabac_encode_aligned_bins_ep (data : cabac_data) (bin_values : Nat) (num_bins : Nat) :
    cabac_data :=
  if h : num_bins > 0 then
    let bins_to_code := min num_bins 8
    let bin_mask := (1 <<< bins_to_code) - 1
    let new_bins := (bin_values >>> (num_bins - bins_to_code)) &&& bin_mask
    let d := { data with
      low := u32 ((data.low <<< bins_to_code) + (new_bins <<< 8))
      bits_left := data.bits_left - bins_to_code }
    let d := if d.bits_left < 12 then kvz_cabac_write d else d
    kvz_cabac_encode_aligned_bins_ep d bin_values (num_bins - bins_to_code)
  else data
termination_by num_bins
decreasing_by
  simp_wf
  omega

/-- The while loop of kvz_cabac_encode_bins_ep (src/cabac.c lines
276-287): chunk the bins by 8 while more than 8 remain. -/
def kvz_cabac_encode_bins_ep_loop (data : cabac_data) (bin_values : Nat) (num_bins : Nat) :
    cabac_data × Nat × Nat :=
  if num_bins > 8 then
    let num_bins2 := num_bins - 8
    let pattern := bin_values >>> num_bins2
    let d := { data with
      low := u32 ((data.low <<< 8) + data.range * pattern)
      bits_left := data.bits_left - 8 }
    let d := if d.bits_left < 12 then kvz_cabac_write d else d
    kvz_cabac_encode_bins_ep_loop d (bin_values - (pattern <<< num_bins2)) num_bins2
  else (data, bin_values, num_bins)
termination_by num_bins
decreasing_by
  simp_wf
  omega

/-- kvz_cabac_encode_bins_ep from src/cabac.c lines 268-296. -/
def kvz_cabac_encode_bins_ep (data : cabac_data) (bin_values : Nat) (num_bins : Nat) :
    cabac_data :=
  if data.range = 256 then kvz_cabac_encode_aligned_bins_ep data bin_values num_bins
  else
    let (d, bin_values, num_bins) := kvz_cabac_encode_bins_ep_loop data bin_values num_bins
    let d2 := { d with
      low := u32 ((d.low <<< num_bins) + d.range * bin_values)
      bits_left := d.bits_left - num_bins }
    if d2.bits_left < 12 then kvz_cabac_write d2 else d2

/-- kvz_tb_max from src/cabac.c lines 38-47; the 257 literal values of
the source table, written with replicate runs. -/
def kvz_tb_max : List Nat :=
  [0, 0, 1, 1, 2, 2, 2, 2] ++ List.replicate 8 3 ++ List.replicate 16 4 ++
  List.replicate 32 5 ++ List.replicate 64 6 ++ List.replicate 128 7 ++ [8]

/-- The while loop of kvz_cabac_encode_trunc_bin for max_value > 256
(src/cabac.c lines 194-200). -/
def trunc_bin_thresh_loop (thresh threshVal max_value fuel : Nat) : Nat :=
  match fuel with
  | 0 => thresh
  | fuel + 1 =>
    if threshVal ≤ max_value then trunc_bin_thresh_loop (thresh + 1) (threshVal <<< 1) max_value fuel
    else thresh

/-- The pure binarization part of kvz_cabac_encode_trunc_bin
(src/cabac.c lines 190-214): the (symbol, number-of-bins) pair handed
to the bypass coder CABAC_BINS_EP. -/
def kvz_cabac_encode_trunc_bin_sym (bin_value max_value : Nat) : Nat × Nat :=
  let thresh : Nat :=
    if max_value > 256 then trunc_bin_thresh_loop 8 (1 <<< 8) max_value 32 - 1
    else kvz_tb_max.getD max_value 0
  let val : Int := 1 <<< (thresh : Int).toNat
  let b : Int := (max_value : Int) - val
  if (bin_value : Int) < val - b then (bin_value, thresh)
  else (((bin_value : Int) + (val - b)).toNat, thresh + 1)

/-- kvz_cabac_encode_trunc_bin from src/cabac.c lines 190-214: the
binarization above followed by the bypass-bin write. -/
def kvz_cabac_encode_trunc_bin (data : cabac_data) (bin_value max_value : Nat) : cabac_data :=
  let p := kvz_cabac_encode_trunc_bin_sym bin_value max_value
  kvz_cabac_encode_bins_ep data p.1 p.2

/-- An arbitrary pre-start cabac_data value with an empty output
bitstream. -/
def cabac_pre : cabac_data :=
  { low := 0, range := 0, bits_left := 0, num_buffered_bytes := 0, buffered_byte := 0,
    cur_ctx := { mps := false, state := 0 }, only_count := false, stream := [] }

/-- A freshly initialized CABAC coder with an empty output bitstream,
as produced by kvz_cabac_start. -/
def cabac_fresh : cabac_data := kvz_cabac_start cabac_pre

/-- The scenario of the C4 claim: from a fresh state, one terminating
bin with value 1, then finish, then the trailing stop bit put(1,1) and
zero alignment (encoderstate.c lines 938-942). -/
def C4_final_stream : List Bool :=
  bitstream_align_zero
    (bitstream_put (kvz_cabac_finish (kvz_cabac_encode_bin_trm cabac_fresh 1)).stream 1 1)

/-! ### Frame controller: POC assignment (src/encoderstate.c lines 1912-1942) -/

/-- The configuration fields consulted by the POC assignment in
encoder_state_init_new_frame. -/
structure poc_config where
  gop_len : Nat
  gop_lowdelay : Bool
  intra_period : Nat
  open_gop : Bool
  poc_offset : Nat → Int

/-- The POC assignment of encoder_state_init_new_frame
(src/encoderstate.c lines 1912-1942) as a function of the frame number,
the configuration and the precomputed GOP offset.  The branch guards
ensure num ≥ 1 wherever framenum = num - 1 is taken, so the Nat
subtraction is exact. -/
def encoder_set_poc (cfg : poc_config) (num gop_offset : Nat) : Int :=
  if num = 0 then 0
  else if cfg.gop_len ≠ 0 ∧ cfg.gop_lowdelay = false then
    let framenum := num - 1
    if cfg.intra_period > 0 ∧ cfg.open_gop = false then
      if framenum % (cfg.intra_period + 1) = cfg.intra_period then 0
      else
        let framenum := framenum % (cfg.intra_period + 1)
        ((framenum - framenum % cfg.gop_len : Nat) : Int) + cfg.poc_offset gop_offset
    else
      ((framenum - framenum % cfg.gop_len : Nat) : Int) + cfg.poc_offset gop_offset
  else if cfg.intra_period > 1 then ((num % cfg.intra_period : Nat) : Int)
  else (num : Int)

/-- A no-GOP all-intra configuration: gop_len 0, intra_period 1. -/
def C7_cfg_nogop : poc_config :=
  { gop_len := 0, gop_lowdelay := false, intra_period := 1, open_gop := false,
    poc_offset := fun _ => 1 }

/-! ### HMVP snapshot and restore (src/encoderstate.c lines 755-823) -/

/-- Slice types from uvg266. -/
inductive uvg_slice_type where
  | UVG_SLICE_B
  | UVG_SLICE_P
  | UVG_SLICE_I
deriving DecidableEq, Repr

/-- The per-CTU-row HMVP state of a videoframe_t: for each CTU row the
5-entry LUT (held abstractly as one value of type α), its fill size,
and the same pair for the IBC LUT. -/
structure hmvp_tables (α : Type) where
  hmvp_lut : Nat → α
  hmvp_size : Nat → Nat
  hmvp_lut_ibc : Nat → α
  hmvp_size_ibc : Nat → Nat

/-- The HMVP discipline of encoder_state_worker_encode_lcu_search
(src/encoderstate.c lines 755-823): snapshot the row's LUTs, run the
search (uvg_search_lcu, an arbitrary state transformer here), then
restore the row's LUTs — the main LUT when the slice is not an I slice,
the IBC LUT when cfg.ibc is nonzero.  When cfg.alf_type is nonzero the
worker ends with a simulated bitstream pass (an arbitrary transformer,
since uvg_encode_coding_tree is outside the excerpt). -/
def encoder_state_worker_encode_lcu_search_hmvp {α : Type}
    (slicetype : uvg_slice_type) (ibc alf_type : Nat)
    (search : hmvp_tables α → hmvp_tables α)
    (bitstream_sim : hmvp_tables α → hmvp_tables α)
    (ctu_row : Nat) (t : hmvp_tables α) : hmvp_tables α :=
  let original_lut := t.hmvp_lut ctu_row
  let original_lut_size := t.hmvp_size ctu_row
  let original_lut_ibc := t.hmvp_lut_ibc ctu_row
  let original_lut_size_ibc := t.hmvp_size_ibc ctu_row
  let t1 := search t
  let t2 :=
    if slicetype ≠ uvg_slice_type.UVG_SLICE_I then
      { t1 with
        hmvp_lut := Function.update t1.hmvp_lut ctu_row original_lut
        hmvp_size := Function.update t1.hmvp_size ctu_row original_lut_size }
    else t1
  let t3 :=
    if ibc ≠ 0 then
      { t2 with
        hmvp_lut_ibc := Function.update t2.hmvp_lut_ibc ctu_row original_lut_ibc
        hmvp_size_ibc := Function.update t2.hmvp_size_ibc ctu_row original_lut_size_ibc }
    else t2
  if alf_type ≠ 0 then bitstream_sim t3 else t3

/-! ### WPP context hand-off (src/encoderstate.c lines 971-981) -/

/-- Encoder state types from uvg266. -/
inductive encoder_state_type where
  | ENCODER_STATE_TYPE_MAIN
  | ENCODER_STATE_TYPE_SLICE
  | ENCODER_STATE_TYPE_TILE
  | ENCODER_STATE_TYPE_WAVEFRONT_ROW
deriving DecidableEq, Repr

/-- The context hand-off condition at the end of
encoder_state_worker_encode_lcu_bitstream (src/encoderstate.c line
972): the contexts are copied to the next row exactly when the leaf is
a wavefront row and the finished CTU has lcu->index == 0. -/
def wpp_ctx_copy_after (t : encoder_state_type) (lcu_index : Nat) : Bool :=
  decide (t = encoder_state_type.ENCODER_STATE_TYPE_WAVEFRONT_ROW ∧ lcu_index = 0)

/-- Modelled from the spec (sections 4.5 and 5): in WPP mode each CTU
row is a leaf state with its own CABAC context state; the bitstream job
of CTU (r, i) transforms the row context by a per-CTU step function,
and after each CTU satisfying the hand-off condition the context is
copied out for the next row (uvg_context_copy).  This scan encodes one
row, returning the final context and the copied hand-off value. -/
def wpp_row_scan {α : Type} (step : Nat → Nat → α → α) (r : Nat) :
    List Nat → α × Option α → α × Option α
  | [], acc => acc
  | i :: is, acc =>
    let c := step r i acc.1
    wpp_row_scan step r is
      (c, if wpp_ctx_copy_after encoder_state_type.ENCODER_STATE_TYPE_WAVEFRONT_ROW i
          then some c else acc.2)

/-- Encode one WPP row of cols CTUs from starting context c. -/
def wpp_row_encode {α : Type} (step : Nat → Nat → α → α) (r cols : Nat) (c : α) :
    α × Option α :=
  wpp_row_scan step r (List.range cols) (c, none)

/-- The context after the first n CTUs of row r have finished their
bitstream pass, starting from context c. -/
def wpp_ctx_after {α : Type} (step : Nat → Nat → α → α) (r : Nat) (c : α) (n : Nat) : α :=
  (List.range n).foldl (fun a i => step r i a) c

/-- The context each row starts with: row 0 starts from the slice-init
context; row r + 1 receives the value copied out of row r by the
hand-off. -/
def wpp_row_start {α : Type} (step : Nat → Nat → α → α) (cols : Nat) (init : α) :
    Nat → α
  | 0 => init
  | r + 1 => ((wpp_row_encode step r cols (wpp_row_start step cols init r)).2).getD init

/-! ### Per-CU QP propagation (src/encoderstate.c lines 636-704, 2220-2245) -/

/-- Constants from global.h / cu.h (not in the excerpt): this source
uses 64x64 CTUs (see the 0..64 skip-scan loops in src/encoderstate.c
lines 953-961). -/
def LCU_WIDTH : Nat := 64

/-- Smallest-CU width: the CU grid is 4x4-granular. -/
def SCU_WIDTH : Nat := 4

/-- Maximum transform width. -/
def TR_MAX_WIDTH : Nat := 64

/-- The cu_info_t fields consulted by QP propagation. -/
structure cu_info where
  log2_width : Nat
  log2_height : Nat
  cbf : Nat
  qp : Int
deriving DecidableEq, Repr

/-- The 4x4-granular CU grid of a frame (cu_array). -/
abbrev cu_grid := Nat → Nat → cu_info

/-- uvg_cu_array_at(cua, x, y): the record of the 4x4 cell containing
pixel (x, y). -/
def uvg_cu_array_at (g : cu_grid) (x y : Nat) : cu_info :=
  g (x / SCU_WIDTH) (y / SCU_WIDTH)

/-- Modelled from the spec: cbf_is_set_any from cu.h (not in the
excerpt) — whether any coded-block-flag bit of the CU is set. -/
def cbf_is_set_any (cbf : Nat) : Bool := decide (cbf ≠ 0)

/-- cu_loc_t position and size fields. -/
structure cu_loc_t where
  x : Nat
  y : Nat
  width : Nat
  height : Nat
deriving DecidableEq, Repr

/-- Modelled from the spec: uvg_cu_loc_ctor from cu.c (not in the
excerpt) fills a cu_loc_t with the given position and dimensions. -/
def uvg_cu_loc_ctor (x y width height : Nat) : cu_loc_t :=
  { x := x, y := y, width := width, height := height }

/-- The encoder/frame state fields consulted by set_cu_qps and
uvg_get_cu_ref_qp. -/
structure qp_state where
  width : Nat
  height : Nat
  max_qp_delta_depth : Int
  chroma_scale_x : Nat
  chroma_scale_y : Nat
deriving DecidableEq, Repr

/-- Quantization group width at (x, y):
1 << MAX(6 - max_qp_delta_depth, log2_width)
(src/encoderstate.c line 2224). -/
def qg_width_of (st : qp_state) (g : cu_grid) (x y : Nat) : Nat :=
  2 ^ (max (6 - st.max_qp_delta_depth) ((uvg_cu_array_at g x y).log2_width : Int)).toNat

/-- Quantization group height at (x, y) (src/encoderstate.c line 2225). -/
def qg_height_of (st : qp_state) (g : cu_grid) (x y : Nat) : Nat :=
  2 ^ (max (6 - st.max_qp_delta_depth) ((uvg_cu_array_at g x y).log2_height : Int)).toNat

/-- x & ~(qg_width - 1): the x of the top-left corner of the
quantization group containing (x, y); qg_width is a power of two. -/
def x_qg_of (st : qp_state) (g : cu_grid) (x y : Nat) : Nat :=
  x / qg_width_of st g x y * qg_width_of st g x y

/-- y & ~(qg_height - 1): the y of the top-left corner of the
quantization group containing (x, y). -/
def y_qg_of (st : qp_state) (g : cu_grid) (x y : Nat) : Nat :=
  y / qg_height_of st g x y * qg_height_of st g x y

/-- uvg_get_cu_ref_qp from src/encoderstate.c lines 2220-2245. -/
def uvg_get_cu_ref_qp (st : qp_state) (g : cu_grid) (x y : Nat) (last_qp : Int) : Int :=
  let x_qg := x_qg_of st g x y
  let y_qg := y_qg_of st g x y
  if x_qg = 0 ∧ 0 < y_qg ∧ y_qg % LCU_WIDTH = 0 then
    (uvg_cu_array_at g x_qg (y_qg - 1)).qp
  else
    let qp_pred_a := if x_qg % LCU_WIDTH > 0 then (uvg_cu_array_at g (x_qg - 1) y_qg).qp
                     else last_qp
    let qp_pred_b := if y_qg % LCU_WIDTH > 0 then (uvg_cu_array_at g x_qg (y_qg - 1)).qp
                     else last_qp
    c_shr (qp_pred_a + qp_pred_b + 1) 1

/-- Modelled from the spec: is_last_cu_in_qg (cu.h, not in the
excerpt) — whether the CU's bottom-right corner coincides with the
bottom-right corner of its quantization group of width
LCU_WIDTH >> max_qp_delta_depth. -/
def is_last_cu_in_qg (st : qp_state) (loc : cu_loc_t) : Bool :=
  if st.max_qp_delta_depth < 0 then false
  else
    let cu_width := LCU_WIDTH >>> st.max_qp_delta_depth.toNat
    decide (loc.x % cu_width + loc.width = cu_width ∧ loc.y % cu_width + loc.height = cu_width)

/-- One store uvg_cu_array_at(cua, x, y)->qp = qp of the write loop of
set_cu_qps (src/encoderstate.c lines 694-698). -/
def grid_set_qp (g : cu_grid) (x y : Nat) (qp : Int) : cu_grid :=
  fun i j => if i = x / SCU_WIDTH ∧ j = y / SCU_WIDTH then { g i j with qp := qp } else g i j

/-- The iteration values of a C loop for (v = a; v < b; v += step). -/
def c_for_range (a b step : Nat) : List Nat :=
  List.range' a ((b - a + step - 1) / step) step

/-- The nested write loop of set_cu_qps: set the QP of every SCU cell
covered by the rectangle from (x0, y0) to (x1, y1). -/
def set_cu_qps_write (g : cu_grid) (x0 x1 y0 y1 : Nat) (qp : Int) : cu_grid :=
  (c_for_range y0 y1 SCU_WIDTH).foldl
    (fun g2 y => (c_for_range x0 x1 SCU_WIDTH).foldl (fun g3 x => grid_set_qp g3 x y qp) g2) g

/-- set_cu_qps from src/encoderstate.c lines 636-704, with the frame
state, the CU grid and the last_qp / prev_qp in-out parameters made
explicit; fuel bounds the quad-tree recursion depth (the C recursion
halves cu_loc width each level).  In the C code cu is a pointer into
the array, so the last_qp update at line 701 reads the QP just written
by the loop above it — modelled by re-reading the updated grid. -/
def set_cu_qps (st : qp_state) (fuel : Nat) (loc : cu_loc_t) (depth : Nat)
    (g : cu_grid) (last_qp prev_qp : Int) : cu_grid × Int × Int :=
  match fuel with
  | 0 => (g, last_qp, prev_qp)
  | fuel + 1 =>
    if loc.x ≥ st.width ∨ loc.y ≥ st.height then (g, last_qp, prev_qp)
    else
      let cu := uvg_cu_array_at g loc.x loc.y
      let width := 1 <<< cu.log2_width
      let prev_qp := if (depth : Int) ≤ st.max_qp_delta_depth then -1 else prev_qp
      if loc.width > width then
        let half_width := loc.width >>> st.chroma_scale_x
        let half_height := loc.height >>> st.chroma_scale_y
        let r1 := set_cu_qps st fuel (uvg_cu_loc_ctor loc.x loc.y half_width half_height)
          (depth + 1) g last_qp prev_qp
        let r2 := set_cu_qps st fuel
          (uvg_cu_loc_ctor (loc.x + half_width) loc.y half_width half_height)
          (depth + 1) r1.1 r1.2.1 r1.2.2
        let r3 := set_cu_qps st fuel
          (uvg_cu_loc_ctor loc.x (loc.y + half_height) half_width half_height)
          (depth + 1) r2.1 r2.2.1 r2.2.2
        set_cu_qps st fuel
          (uvg_cu_loc_ctor (loc.x + half_width) (loc.y + half_height) half_width half_height)
          (depth + 1) r3.1 r3.2.1 r3.2.2
      else
        let y_limit := loc.y + loc.height
        let x_limit := loc.x + loc.width
        let cbf_found :=
          if loc.width > TR_MAX_WIDTH ∨ loc.height > TR_MAX_WIDTH then
            let tu_width := min TR_MAX_WIDTH (1 <<< cu.log2_width)
            decide (prev_qp ≥ 0) ||
              (c_for_range loc.y y_limit tu_width).any (fun y_scu =>
                (c_for_range loc.x x_limit tu_width).any (fun x_scu =>
                  cbf_is_set_any (uvg_cu_array_at g x_scu y_scu).cbf))
          else decide (prev_qp ≥ 0) || cbf_is_set_any cu.cbf
        let qp := if cbf_found then cu.qp else uvg_get_cu_ref_qp st g loc.x loc.y last_qp
        let prev_qp := if cbf_found then cu.qp else prev_qp
        let g := set_cu_qps_write g loc.x x_limit loc.y y_limit qp
        let last_qp := if is_last_cu_in_qg st loc then (uvg_cu_array_at g loc.x loc.y).qp
                       else last_qp
        (g, last_qp, prev_qp)

/-- A one-CTU-wide, two-CTU-tall frame with per-CU delta QP enabled. -/
def qp_test_state : qp_state :=
  { width := 64, height := 128, max_qp_delta_depth := 0, chroma_scale_x := 1,
    chroma_scale_y := 1 }

/-- A CU grid of unsplit 64x64 CUs with no CBF set; the SCU row just
above pixel row 64 (cells with j = 15) holds QP 30, everything else
QP 20. -/
def qp_test_grid : cu_grid :=
  fun _ j => { log2_width := 6, log2_height := 6, cbf := 0, qp := if j = 15 then 30 else 20 }

/-! ### Theorems -/

lemma c_shr_one_abs (x : Int) : c_shr (c_abs x) 1 = c_div (c_abs x) 2 := by
  have h : 0 ≤ c_abs x := by
    unfold c_abs; split <;> omega
  unfold c_shr c_div
  simpa using Int.fdiv_eq_tdiv h (by omega)

/-- C3: the claim states apply_mv_scaling equals the spec formula for
every POC quadruple with p - r ≠ 0 and p' - r' ≠ 0 and every input MV.
This is false: when p - r = p' - r' (both nonzero) the code returns the
MV unchanged, while the formula clips each component to
[-131072, 131071].  At (p,r,p',r') = (1,0,1,0) and MV (200000, 0) the
code yields (200000, 0) but the formula yields (131071, 0). -/
theorem C3_counterexample :
    apply_mv_scaling 1 0 1 0 ⟨200000, 0⟩ ≠ mv_scaling_spec_formula 1 0 1 0 ⟨200000, 0⟩ := by
  decide

/-- C3 (amended): for every POC quadruple with p - r ≠ 0, p' - r' ≠ 0
and p - r ≠ p' - r', apply_mv_scaling equals the spec formula
bit-for-bit; and the quadruple (4,0,4,2) with MV (40,0) yields (80,0). -/
theorem C3_mv_scaling_matches_spec
    (p r pn rn : Int) (mv : vector2d)
    (h1 : p - r ≠ 0) (h2 : pn - rn ≠ 0) (h3 : p - r ≠ pn - rn) :
    apply_mv_scaling p r pn rn mv = mv_scaling_spec_formula p r pn rn mv ∧
    apply_mv_scaling 4 0 4 2 ⟨40, 0⟩ = ⟨80, 0⟩ := by
  refine ⟨?_, by decide⟩
  simp only [apply_mv_scaling, mv_scaling_spec_formula, get_scaled_mv]
  rw [if_neg h3, if_neg h2, c_shr_one_abs]

/-- Witness for C3_mv_scaling_matches_spec at the concrete quadruple
(4,0,4,2) from the spec with MV (40,0). -/
theorem C3_witness :
    apply_mv_scaling 4 0 4 2 ⟨40, 0⟩ = mv_scaling_spec_formula 4 0 4 2 ⟨40, 0⟩ ∧
    apply_mv_scaling 4 0 4 2 ⟨40, 0⟩ = ⟨80, 0⟩ :=
  C3_mv_scaling_matches_spec 4 0 4 2 ⟨40, 0⟩ (by decide) (by decide) (by decide)

/-- C9: whenever p - r = p' - r' or p' - r' = 0, apply_mv_scaling
returns the MV candidate completely unchanged (no scaling, no clipping),
even when p - r lies outside [-128, 127]: both early returns fire before
any clipping happens. -/
theorem C9_mv_scaling_early_return
    (p r pn rn : Int) (mv : vector2d)
    (h : p - r = pn - rn ∨ pn - rn = 0) :
    apply_mv_scaling p r pn rn mv = mv := by
  unfold apply_mv_scaling
  rcases h with h | h
  · rw [if_pos h]
  · by_cases h2 : p - r = pn - rn
    · rw [if_pos h2]
    · rw [if_neg h2, if_pos h]

/-- Witness for C9_mv_scaling_early_return: p - r = 300 lies far outside
[-128, 127] and the MV component 200000 lies outside [-131072, 131071],
yet the MV is returned unchanged. -/
theorem C9_witness : apply_mv_scaling 300 0 301 1 ⟨200000, 7⟩ = ⟨200000, 7⟩ :=
  C9_mv_scaling_early_return 300 0 301 1 ⟨200000, 7⟩ (Or.inl (by decide))

lemma kvz_cabac_write_range (d : cabac_data) : (kvz_cabac_write d).range = d.range := by
  simp only [kvz_cabac_write]
  repeat' split
  all_goals rfl

/-- What kvz_cabac_encode_bin does to the range field. -/
lemma kvz_cabac_encode_bin_range (d : cabac_data) (b : Nat) :
    (kvz_cabac_encode_bin d b).range =
      if (decide (b ≠ 0)) ≠ CTX_MPS d.cur_ctx then
        CTX_LPS d.cur_ctx d.range <<<
          (kvz_g_auc_renorm_table.getD (CTX_LPS d.cur_ctx d.range >>> 3) 0)
      else if d.range - CTX_LPS d.cur_ctx d.range < 256 then
        (d.range - CTX_LPS d.cur_ctx d.range) <<< 1
      else d.range - CTX_LPS d.cur_ctx d.range := by
  simp only [kvz_cabac_encode_bin]
  split
  · split
    · rw [kvz_cabac_write_range]
    · rfl
  · split
    · split
      · rw [kvz_cabac_write_range]
      · rfl
    · rfl

set_option maxRecDepth 100000 in
/-- Finite check over all context states reachable by regular bins
(state at most 62) and all four range indices: the renormalized LPS
range lies in [256, 510] and the LPS value is bounded by 128 + 64*idx. -/
lemma lps_renorm_bounds :
    ∀ s < 63, ∀ i < 4,
      256 ≤ lps_value s i <<< (kvz_g_auc_renorm_table.getD (lps_value s i >>> 3) 0) ∧
      lps_value s i <<< (kvz_g_auc_renorm_table.getD (lps_value s i >>> 3) 0) ≤ 510 ∧
      lps_value s i ≤ 128 + 64 * i := by decide

set_option maxRecDepth 100000 in
/-- Finite check: for range in [256, 510] the range index
(range >> 6) & 3 satisfies 256 + 64*idx ≤ range. -/
lemma range_idx_bound : ∀ r < 511, 256 ≤ r → 256 + 64 * ((r >>> 6) &&& 3) ≤ r := by decide

/-- C1 (counterexample): the claim as stated is false on two counts.
After kvz_cabac_encode_bin_trm with bin 1 the range is 2 << 7 = 256,
not 512.  And a regular bin does not keep the range inside [256, 510]
for every cabac_data with range in [256, 510]: a context at state 63
(the special terminate state of the standard LPS table) coding an LPS
from range 510 leaves range = 2 << 6 = 128. -/
theorem C1_counterexample :
    (kvz_cabac_encode_bin_trm cabac_fresh 1).range ≠ 512 ∧
    (256 ≤ ({ cabac_fresh with cur_ctx := { mps := true, state := 63 } } : cabac_data).range ∧
      ({ cabac_fresh with cur_ctx := { mps := true, state := 63 } } : cabac_data).range ≤ 510) ∧
    (kvz_cabac_encode_bin { cabac_fresh with cur_ctx := { mps := true, state := 63 } } 0).range
      = 128 := by
  decide

/-- C1 (amended): if a cabac_data has range in [256, 510] and its
current context state is at most 62 (every state regular contexts can
reach), the range stays in [256, 510] across kvz_cabac_encode_bin; and
immediately after kvz_cabac_encode_bin_trm with bin value 1 the range
equals 2 << 7 = 256. -/
theorem C1_range_invariant (d e : cabac_data) (b : Nat)
    (h1 : 256 ≤ d.range) (h2 : d.range ≤ 510) (h3 : d.cur_ctx.state ≤ 62) :
    (256 ≤ (kvz_cabac_encode_bin d b).range ∧ (kvz_cabac_encode_bin d b).range ≤ 510) ∧
    (kvz_cabac_encode_bin_trm e 1).range = 256 := by
  constructor
  · rw [kvz_cabac_encode_bin_range]
    have hidx : ((d.range >>> 6) &&& 3) < 4 :=
      Nat.lt_succ_of_le (Nat.and_le_right)
    have hlow := range_idx_bound d.range (by omega) h1
    have hb := lps_renorm_bounds d.cur_ctx.state (by omega) _ hidx
    simp only [CTX_LPS]
    split
    · exact ⟨hb.1, hb.2.1⟩
    · have hl := hb.2.2
      split
      · rw [Nat.shiftLeft_eq]
        omega
      · omega
  · simp only [kvz_cabac_encode_bin_trm, ne_eq, one_ne_zero, not_false_eq_true, if_true]
    split
    · rw [kvz_cabac_write_range]
      rfl
    · rfl

/-- Witness for C1_range_invariant at the fresh CABAC state (range 510,
context state 0). -/
theorem C1_witness :
    (256 ≤ (kvz_cabac_encode_bin cabac_fresh 1).range ∧
      (kvz_cabac_encode_bin cabac_fresh 1).range ≤ 510) ∧
    (kvz_cabac_encode_bin_trm cabac_fresh 1).range = 256 :=
  C1_range_invariant cabac_fresh cabac_fresh 1 (by decide) (by decide) (by decide)

/-- C4 (counterexample): from a fresh CABAC state, encode_bin_trm(1)
then finish then the trailing stop bit and zero alignment does NOT emit
the bytes 0x80 0x00 claimed by the spec. -/
theorem C4_counterexample : stream_bytes C4_final_stream ≠ [0x80, 0x00] := by decide

/-- C4 (amended): the scenario emits exactly the two bytes 0xFE 0x80:
finish pushes the tail low >> 8 = 0xFE as 8 raw bits, and the stop bit
plus alignment contribute 0x80. -/
theorem C4_emitted_bytes : stream_bytes C4_final_stream = [0xfe, 0x80] := by decide

/-- C5 (counterexample): encode_trunc_bin with (s=2, max=3) does not
emit the bins 10; it binarizes s=2 as symbol 3 in 2 bins, the bits 11. -/
theorem C5_counterexample :
    toBits (kvz_cabac_encode_trunc_bin_sym 2 3).1 (kvz_cabac_encode_trunc_bin_sym 2 3).2
      ≠ [true, false] := by decide

/-- C5 (amended): the truncated-binary binarization emits 0 bins for
(s=0, max=1); the single bin 0 for (s=0, max=3); the two bins 11 for
(s=2, max=3); and for the out-of-range input (s=3, max=3) it hands
symbol 4 with 2 bins to the bypass coder. -/
theorem C5_trunc_bin_cases :
    kvz_cabac_encode_trunc_bin_sym 0 1 = (0, 0) ∧
    kvz_cabac_encode_trunc_bin_sym 0 3 = (0, 1) ∧
    toBits (kvz_cabac_encode_trunc_bin_sym 0 3).1 (kvz_cabac_encode_trunc_bin_sym 0 3).2
      = [false] ∧
    kvz_cabac_encode_trunc_bin_sym 2 3 = (3, 2) ∧
    toBits (kvz_cabac_encode_trunc_bin_sym 2 3).1 (kvz_cabac_encode_trunc_bin_sym 2 3).2
      = [true, true] ∧
    kvz_cabac_encode_trunc_bin_sym 3 3 = (4, 2) := by decide

lemma succ_mod_eq_zero_iff (m k : Nat) : (m + 1) % (k + 1) = 0 ↔ m % (k + 1) = k := by
  have hr : m % (k + 1) < k + 1 := Nat.mod_lt _ (Nat.succ_pos k)
  rw [Nat.add_mod]
  rcases Nat.eq_zero_or_pos k with rfl | hpos
  · simp [Nat.mod_one]
  · rw [Nat.mod_eq_of_lt (show 1 < k + 1 by omega)]
    by_cases hk : m % (k + 1) = k
    · rw [hk]
      simp [Nat.mod_self]
    · rw [Nat.mod_eq_of_lt (by omega)]
      omega

/-- C7 (counterexample): with no GOP structure and intra_period = 1
(all-intra, gop_len 0), frame 1 gets POC 1, not the claim's
framenum % intra_period = 0. -/
theorem C7_counterexample :
    encoder_set_poc C7_cfg_nogop 1 0 ≠ ((1 % C7_cfg_nogop.intra_period : Nat) : Int) := by
  decide

/-- C7 (amended): POC assignment as a function of frame number and
configuration, for frames past frame 0.  Closed GOP (gop_len set, not
low-delay, intra_period > 0, open_gop off): POC resets to 0 every
intra_period + 1 frames, other frames get framenum - framenum % gop_len
+ poc_offset with framenum = (num - 1) % (intra_period + 1).  Open GOP:
framenum - framenum % gop_len + poc_offset with framenum = num - 1.
No GOP structure: num % intra_period when intra_period > 1, and num
itself when intra_period ≤ 1. -/
theorem C7_poc_assignment (cfg : poc_config) (num gop_offset : Nat) (h0 : num ≠ 0) :
    (cfg.gop_len ≠ 0 → cfg.gop_lowdelay = false → cfg.intra_period > 0 → cfg.open_gop = false →
      ((num % (cfg.intra_period + 1) = 0 → encoder_set_poc cfg num gop_offset = 0) ∧
       (num % (cfg.intra_period + 1) ≠ 0 →
          encoder_set_poc cfg num gop_offset =
            (((num - 1) % (cfg.intra_period + 1) -
              (num - 1) % (cfg.intra_period + 1) % cfg.gop_len : Nat) : Int) +
              cfg.poc_offset gop_offset))) ∧
    (cfg.gop_len ≠ 0 → cfg.gop_lowdelay = false → cfg.open_gop = true →
      encoder_set_poc cfg num gop_offset =
        ((num - 1 - (num - 1) % cfg.gop_len : Nat) : Int) + cfg.poc_offset gop_offset) ∧
    ((cfg.gop_len = 0 ∨ cfg.gop_lowdelay = true) → cfg.intra_period > 1 →
      encoder_set_poc cfg num gop_offset = ((num % cfg.intra_period : Nat) : Int)) ∧
    ((cfg.gop_len = 0 ∨ cfg.gop_lowdelay = true) → cfg.intra_period ≤ 1 →
      encoder_set_poc cfg num gop_offset = (num : Int)) := by
  have hn : num - 1 + 1 = num := by omega
  unfold encoder_set_poc
  rw [if_neg h0]
  refine ⟨?_, ?_, ?_, ?_⟩
  · intro hg hl hip ho
    rw [if_pos ⟨hg, hl⟩, if_pos ⟨hip, ho⟩]
    constructor
    · intro hz
      rw [if_pos ((succ_mod_eq_zero_iff (num - 1) cfg.intra_period).mp (by rw [hn]; exact hz))]
    · intro hnz
      rw [if_neg (fun hc => hnz (by
        rw [← hn]
        exact (succ_mod_eq_zero_iff (num - 1) cfg.intra_period).mpr hc))]
  · intro hg hl ho
    rw [if_pos ⟨hg, hl⟩, if_neg (by simp [ho])]
  · intro hd hip
    rw [if_neg (by rcases hd with h | h <;> simp [h]), if_pos hip]
  · intro hd hip
    rw [if_neg (by rcases hd with h | h <;> simp [h]), if_neg (by omega)]

/-- Witness for C7_poc_assignment: the all-intra no-GOP configuration
at frame 5 yields POC 5. -/
theorem C7_witness : encoder_set_poc C7_cfg_nogop 5 0 = (5 : Int) :=
  (C7_poc_assignment C7_cfg_nogop 5 0 (by decide)).2.2.2 (Or.inl rfl) (by decide)

/-- C8: for a CTU of a non-I slice, the row's HMVP LUT and its size
after encoder_state_worker_encode_lcu_search (before any bitstream
pass, so with ALF off) equal their values before the search, for every
possible behaviour of the search itself; likewise for the IBC LUT when
IBC is enabled. -/
theorem C8_hmvp_restored {α : Type} (slicetype : uvg_slice_type) (ibc : Nat)
    (search bitstream_sim : hmvp_tables α → hmvp_tables α) (ctu_row : Nat)
    (t : hmvp_tables α)
    (hI : slicetype ≠ uvg_slice_type.UVG_SLICE_I) :
    ((encoder_state_worker_encode_lcu_search_hmvp slicetype ibc 0 search bitstream_sim
        ctu_row t).hmvp_lut ctu_row = t.hmvp_lut ctu_row ∧
     (encoder_state_worker_encode_lcu_search_hmvp slicetype ibc 0 search bitstream_sim
        ctu_row t).hmvp_size ctu_row = t.hmvp_size ctu_row) ∧
    (ibc ≠ 0 →
      (encoder_state_worker_encode_lcu_search_hmvp slicetype ibc 0 search bitstream_sim
         ctu_row t).hmvp_lut_ibc ctu_row = t.hmvp_lut_ibc ctu_row ∧
      (encoder_state_worker_encode_lcu_search_hmvp slicetype ibc 0 search bitstream_sim
         ctu_row t).hmvp_size_ibc ctu_row = t.hmvp_size_ibc ctu_row) := by
  simp only [encoder_state_worker_encode_lcu_search_hmvp]
  rw [if_pos hI]
  by_cases hibc : ibc ≠ 0 <;>
    simp [hibc, Function.update_same]

/-- A concrete HMVP table assignment for the C8 witness. -/
def C8_tables : hmvp_tables Nat :=
  { hmvp_lut := fun r => 100 + r, hmvp_size := fun r => r,
    hmvp_lut_ibc := fun r => 200 + r, hmvp_size_ibc := fun r => 2 * r }

/-- A concrete search transformer that clobbers every HMVP field. -/
def C8_search : hmvp_tables Nat → hmvp_tables Nat := fun _ =>
  { hmvp_lut := fun _ => 999, hmvp_size := fun _ => 5,
    hmvp_lut_ibc := fun _ => 888, hmvp_size_ibc := fun _ => 5 }

/-- Witness for C8_hmvp_restored: a B slice with IBC enabled, CTU row
0, and a search that clobbers the whole table. -/
theorem C8_witness :
    ((encoder_state_worker_encode_lcu_search_hmvp uvg_slice_type.UVG_SLICE_B 1 0 C8_search id
        0 C8_tables).hmvp_lut 0 = C8_tables.hmvp_lut 0 ∧
     (encoder_state_worker_encode_lcu_search_hmvp uvg_slice_type.UVG_SLICE_B 1 0 C8_search id
        0 C8_tables).hmvp_size 0 = C8_tables.hmvp_size 0) ∧
    ((1 : Nat) ≠ 0 →
      (encoder_state_worker_encode_lcu_search_hmvp uvg_slice_type.UVG_SLICE_B 1 0 C8_search id
         0 C8_tables).hmvp_lut_ibc 0 = C8_tables.hmvp_lut_ibc 0 ∧
      (encoder_state_worker_encode_lcu_search_hmvp uvg_slice_type.UVG_SLICE_B 1 0 C8_search id
         0 C8_tables).hmvp_size_ibc 0 = C8_tables.hmvp_size_ibc 0) :=
  C8_hmvp_restored uvg_slice_type.UVG_SLICE_B 1 C8_search id 0 C8_tables (by decide)

lemma wpp_row_scan_none_zero {α : Type} (step : Nat → Nat → α → α) (r : Nat) :
    ∀ (is : List Nat) (a : α) (o : Option α), (∀ i ∈ is, i ≠ 0) →
      (wpp_row_scan step r is (a, o)).2 = o := by
  intro is
  induction is with
  | nil => intro a o _; rfl
  | cons i is ih =>
    intro a o h
    have hi : i ≠ 0 := h i (by simp)
    simp only [wpp_row_scan]
    rw [show wpp_ctx_copy_after encoder_state_type.ENCODER_STATE_TYPE_WAVEFRONT_ROW i = false by
      simp [wpp_ctx_copy_after, hi]]
    exact ih _ _ (fun j hj => h j (by simp [hj]))

lemma wpp_row_encode_handoff {α : Type} (step : Nat → Nat → α → α) (r cols : Nat) (c : α)
    (h : 1 ≤ cols) :
    (wpp_row_encode step r cols c).2 = some (step r 0 c) := by
  obtain ⟨k, rfl⟩ : ∃ k, cols = k + 1 := ⟨cols - 1, by omega⟩
  unfold wpp_row_encode
  rw [List.range_succ_eq_map]
  simp only [wpp_row_scan]
  rw [show wpp_ctx_copy_after encoder_state_type.ENCODER_STATE_TYPE_WAVEFRONT_ROW 0 = true by
    simp [wpp_ctx_copy_after]]
  refine wpp_row_scan_none_zero step r _ _ _ ?_
  intro i hi
  simp only [List.mem_map] at hi
  obtain ⟨j, _, rfl⟩ := hi
  exact Nat.succ_ne_zero j

/-- C2 (counterexample): with contexts modelled as a counter and every
CTU bitstream pass as +1, 2 CTUs per row: row 1 starts from the context
after CTU (0,0) (value 1), not from the context after CTU (0,1)
(value 2), so the claim that the hand-off happens after the second CTU
is false. -/
theorem C2_counterexample :
    wpp_row_start (fun _ _ c => c + 1) 2 0 1 ≠
      wpp_ctx_after (fun _ _ c => c + 1) 0 (wpp_row_start (fun _ _ c => c + 1) 2 0 0) 2 := by
  decide

/-- C2 (amended): in WPP mode the CABAC contexts are copied to the next
row when the FIRST CTU of the row (lcu->index == 0) finishes its
bitstream pass: for every step behaviour, row width ≥ 1 and row r, the
context at the start of row r + 1 equals the context after CTU (r, 0)
finishes. -/
theorem C2_wpp_handoff_first_ctu {α : Type} (step : Nat → Nat → α → α) (cols : Nat)
    (init : α) (r : Nat) (h : 1 ≤ cols) :
    wpp_row_start step cols init (r + 1) =
      wpp_ctx_after step r (wpp_row_start step cols init r) 1 := by
  simp only [wpp_row_start]
  rw [wpp_row_encode_handoff step r cols _ h]
  rfl

/-- Witness for C2_wpp_handoff_first_ctu at the concrete counter
model with 2 CTUs per row, at row 0. -/
theorem C2_witness :
    wpp_row_start (fun _ _ c => c + 1) 2 0 1 =
      wpp_ctx_after (fun _ _ c => c + 1) 0 (wpp_row_start (fun _ _ c => c + 1) 2 0 0) 1 :=
  C2_wpp_handoff_first_ctu (fun _ _ c => c + 1) 2 0 0 (by decide)

lemma grid_set_qp_apply (g : cu_grid) (x y : Nat) (qp : Int) (i j : Nat) :
    grid_set_qp g x y qp i j = g i j ∨ grid_set_qp g x y qp i j = { g i j with qp := qp } := by
  unfold grid_set_qp
  split
  · exact Or.inr rfl
  · exact Or.inl rfl

lemma cu_update_qp_idem (c : cu_info) (qp : Int) :
    ({ ({ c with qp := qp } : cu_info) with qp := qp } : cu_info) = { c with qp := qp } := rfl

lemma grid_fold_inner_pointwise (qp : Int) (y i j : Nat) :
    ∀ (xs : List Nat) (g : cu_grid),
      (xs.foldl (fun g2 x => grid_set_qp g2 x y qp) g) i j = g i j ∨
      (xs.foldl (fun g2 x => grid_set_qp g2 x y qp) g) i j = { g i j with qp := qp } := by
  intro xs
  induction xs with
  | nil => intro g; exact Or.inl rfl
  | cons x xs ih =>
    intro g
    simp only [List.foldl_cons]
    rcases ih (grid_set_qp g x y qp) with h | h <;> rw [h]
    · exact grid_set_qp_apply g x y qp i j
    · rcases grid_set_qp_apply g x y qp i j with h2 | h2 <;> rw [h2]
      · exact Or.inr rfl
      · exact Or.inr (cu_update_qp_idem _ _)

lemma grid_fold_inner_mem (qp : Int) (y x0 : Nat) :
    ∀ (xs : List Nat) (g : cu_grid), x0 ∈ xs →
      (xs.foldl (fun g2 x => grid_set_qp g2 x y qp) g) (x0 / SCU_WIDTH) (y / SCU_WIDTH) =
        { g (x0 / SCU_WIDTH) (y / SCU_WIDTH) with qp := qp } := by
  intro xs
  induction xs with
  | nil => intro g h; exact absurd h (List.not_mem_nil x0)
  | cons x xs ih =>
    intro g hmem
    simp only [List.foldl_cons]
    by_cases hx : x0 ∈ xs
    · rw [ih _ hx]
      rcases grid_set_qp_apply g x y qp (x0 / SCU_WIDTH) (y / SCU_WIDTH) with h2 | h2 <;>
        rw [h2]
    · have hx0 : x0 = x := by
        rcases List.mem_cons.mp hmem with h | h
        · exact h
        · exact absurd h hx
      subst hx0
      have hset : grid_set_qp g x0 y qp (x0 / SCU_WIDTH) (y / SCU_WIDTH) =
          { g (x0 / SCU_WIDTH) (y / SCU_WIDTH) with qp := qp } := by
        unfold grid_set_qp
        rw [if_pos ⟨rfl, rfl⟩]
      rcases grid_fold_inner_pointwise qp y (x0 / SCU_WIDTH) (y / SCU_WIDTH) xs
          (grid_set_qp g x0 y qp) with h2 | h2 <;> rw [h2, hset]

lemma grid_fold_outer_pointwise (qp : Int) (xs : List Nat) (i j : Nat) :
    ∀ (ys : List Nat) (g : cu_grid),
      ((ys.foldl (fun g2 y => xs.foldl (fun g3 x => grid_set_qp g3 x y qp) g2) g) i j = g i j) ∨
      ((ys.foldl (fun g2 y => xs.foldl (fun g3 x => grid_set_qp g3 x y qp) g2) g) i j =
        { g i j with qp := qp }) := by
  intro ys
  induction ys with
  | nil => intro g; exact Or.inl rfl
  | cons y ys ih =>
    intro g
    simp only [List.foldl_cons]
    rcases ih (xs.foldl (fun g3 x => grid_set_qp g3 x y qp) g) with h | h <;> rw [h]
    · exact grid_fold_inner_pointwise qp y i j xs g
    · rcases grid_fold_inner_pointwise qp y i j xs g with h2 | h2 <;> rw [h2]
      · exact Or.inr rfl
      · exact Or.inr (cu_update_qp_idem _ _)

lemma grid_fold_outer_mem (qp : Int) (xs : List Nat) (x0 y0 : Nat) (hx : x0 ∈ xs) :
    ∀ (ys : List Nat) (g : cu_grid), y0 ∈ ys →
      ((ys.foldl (fun g2 y => xs.foldl (fun g3 x => grid_set_qp g3 x y qp) g2) g)
          (x0 / SCU_WIDTH) (y0 / SCU_WIDTH) =
        { g (x0 / SCU_WIDTH) (y0 / SCU_WIDTH) with qp := qp }) := by
  intro ys
  induction ys with
  | nil => intro g h; exact absurd h (List.not_mem_nil y0)
  | cons y ys ih =>
    intro g hmem
    simp only [List.foldl_cons]
    by_cases hy : y0 ∈ ys
    · rw [ih _ hy]
      rcases grid_fold_inner_pointwise qp y (x0 / SCU_WIDTH) (y0 / SCU_WIDTH) xs g
        with h2 | h2 <;> rw [h2]
    · have hy0 : y0 = y := by
        rcases List.mem_cons.mp hmem with h | h
        · exact h
        · exact absurd h hy
      subst hy0
      have hrow := grid_fold_inner_mem qp y0 x0 xs g hx
      rcases grid_fold_outer_pointwise qp xs (x0 / SCU_WIDTH) (y0 / SCU_WIDTH) ys
          (xs.foldl (fun g3 x => grid_set_qp g3 x y0 qp) g) with h2 | h2 <;> rw [h2, hrow]

lemma set_cu_qps_write_at (g : cu_grid) (x0 x1 y0 y1 : Nat) (qp : Int)
    (hx : x0 < x1) (hy : y0 < y1) :
    uvg_cu_array_at (set_cu_qps_write g x0 x1 y0 y1 qp) x0 y0 =
      { uvg_cu_array_at g x0 y0 with qp := qp } := by
  have hmx : x0 ∈ c_for_range x0 x1 SCU_WIDTH := by
    unfold c_for_range SCU_WIDTH
    rw [List.mem_range']
    exact ⟨0, by omega, by omega⟩
  have hmy : y0 ∈ c_for_range y0 y1 SCU_WIDTH := by
    unfold c_for_range SCU_WIDTH
    rw [List.mem_range']
    exact ⟨0, by omega, by omega⟩
  exact grid_fold_outer_mem qp (c_for_range x0 x1 SCU_WIDTH) x0 y0 hmx
    (c_for_range y0 y1 SCU_WIDTH) g hmy

set_option maxRecDepth 100000 in
/-- C6 (counterexample): a 64x128 frame of unsplit, CBF-free 64x64 CUs
with last_qp 20, where the cells directly above pixel row 64 hold QP
30.  The CU at (0, 64) precedes any CBF-set CU in its quantization
group and both its neighbors lie outside the current CTU row/column,
so the claim's predicted QP is (20 + 20 + 1) >> 1 = 20; set_cu_qps
instead assigns 30, the QP stored directly above the group. -/
theorem C6_counterexample :
    (uvg_cu_array_at (set_cu_qps qp_test_state 4 (uvg_cu_loc_ctor 0 64 64 64) 0
        qp_test_grid 20 (-1)).1 0 64).qp = 30 ∧
    c_shr (20 + 20 + 1) 1 = 20 := by
  constructor
  · decide
  · decide

/-- C6 (amended): at a leaf of the set_cu_qps walk (a CU that is not
split further and not TU-split), a CU whose quantization group has no
coded QP yet (prev_qp, after the per-depth reset, still -1) and whose
own CBF is clear receives uvg_get_cu_ref_qp(x, y, last_qp); CUs from
the first CBF-set CU onward (prev_qp ≥ 0 or own CBF set) receive the
stored coded QP cu->qp.  The predicted QP is the average
(qp_left + qp_above + 1) >> 1 with last_qp fallbacks EXCEPT when the
group starts at x_qg = 0 on a CTU-row boundary (y_qg a positive
multiple of LCU_WIDTH), where the QP of the cell directly above the
group is used instead. -/
theorem C6_qp_propagation (st : qp_state) (fuel : Nat) (loc : cu_loc_t) (depth : Nat)
    (g : cu_grid) (last_qp prev_qp : Int)
    (hx : loc.x < st.width) (hy : loc.y < st.height)
    (hw : 0 < loc.width) (hh : 0 < loc.height)
    (hleaf : ¬ loc.width > 1 <<< (uvg_cu_array_at g loc.x loc.y).log2_width)
    (htr : ¬ (loc.width > TR_MAX_WIDTH ∨ loc.height > TR_MAX_WIDTH)) :
    ((uvg_cu_array_at (set_cu_qps st (fuel + 1) loc depth g last_qp prev_qp).1
        loc.x loc.y).qp =
      (if (decide ((if (depth : Int) ≤ st.max_qp_delta_depth then (-1 : Int) else prev_qp) ≥ 0) ||
            cbf_is_set_any (uvg_cu_array_at g loc.x loc.y).cbf) = true
       then (uvg_cu_array_at g loc.x loc.y).qp
       else uvg_get_cu_ref_qp st g loc.x loc.y last_qp)) ∧
    (∀ xx yy : Nat, ∀ lq : Int,
      uvg_get_cu_ref_qp st g xx yy lq =
        if x_qg_of st g xx yy = 0 ∧ 0 < y_qg_of st g xx yy ∧
           y_qg_of st g xx yy % LCU_WIDTH = 0
        then (uvg_cu_array_at g (x_qg_of st g xx yy) (y_qg_of st g xx yy - 1)).qp
        else c_shr
          ((if x_qg_of st g xx yy % LCU_WIDTH > 0
            then (uvg_cu_array_at g (x_qg_of st g xx yy - 1) (y_qg_of st g xx yy)).qp
            else lq) +
           (if y_qg_of st g xx yy % LCU_WIDTH > 0
            then (uvg_cu_array_at g (x_qg_of st g xx yy) (y_qg_of st g xx yy - 1)).qp
            else lq) + 1) 1) := by
  constructor
  · simp only [set_cu_qps]
    rw [if_neg (by push_neg; exact ⟨hx, hy⟩)]
    rw [if_neg hleaf]
    rw [if_neg htr]
    rw [set_cu_qps_write_at g loc.x (loc.x + loc.width) loc.y (loc.y + loc.height) _
      (by omega) (by omega)]
  · intro xx yy lq
    rfl

set_option maxRecDepth 100000 in
/-- Witness for C6_qp_propagation at the concrete frame of
C6_counterexample (fuel 3 + 1 = 4, CU at (0, 64)). -/
theorem C6_witness :
    ((uvg_cu_array_at (set_cu_qps qp_test_state 4 (uvg_cu_loc_ctor 0 64 64 64) 0
        qp_test_grid 20 (-1)).1 0 64).qp =
      (if (decide ((if ((0 : Nat) : Int) ≤ qp_test_state.max_qp_delta_depth then (-1 : Int)
              else (-1 : Int)) ≥ 0) ||
            cbf_is_set_any (uvg_cu_array_at qp_test_grid 0 64).cbf) = true
       then (uvg_cu_array_at qp_test_grid 0 64).qp
       else uvg_get_cu_ref_qp qp_test_state qp_test_grid 0 64 20)) := by
  exact (C6_qp_propagation qp_test_state 3 (uvg_cu_loc_ctor 0 64 64 64) 0 qp_test_grid
    20 (-1) (by decide) (by decide) (by decide) (by decide) (by decide) (by decide)).1

/-- C10: when the quantization group containing (x, y) starts at
x_qg = 0 with y_qg a positive multiple of LCU_WIDTH, uvg_get_cu_ref_qp
returns the QP of the 4x4 cell directly above the group, bypassing
both the last_qp fallback and the averaging formula. -/
theorem C10_ref_qp_left_edge_row_start (st : qp_state) (g : cu_grid) (x y : Nat)
    (last_qp : Int)
    (h1 : x_qg_of st g x y = 0) (h2 : 0 < y_qg_of st g x y)
    (h3 : y_qg_of st g x y % LCU_WIDTH = 0) :
    uvg_get_cu_ref_qp st g x y last_qp =
      (uvg_cu_array_at g (x_qg_of st g x y) (y_qg_of st g x y - 1)).qp := by
  simp only [uvg_get_cu_ref_qp]
  rw [if_pos ⟨h1, h2, h3⟩]

/-- Witness for C10_ref_qp_left_edge_row_start at (0, 64) of the
concrete frame: the group starts at (0, 64) and the result is the QP
30 stored at cell (0, 63). -/
theorem C10_witness :
    uvg_get_cu_ref_qp qp_test_state qp_test_grid 0 64 20 =
      (uvg_cu_array_at qp_test_grid (x_qg_of qp_test_state qp_test_grid 0 64)
        (y_qg_of qp_test_state qp_test_grid 0 64 - 1)).qp :=
  C10_ref_qp_left_edge_row_start qp_test_state qp_test_grid 0 64 20
    (by decide) (by decide) (by decide)
